import Mathlib

/-!
Shallow embedding of the message-routing and cover-position-estimation core
of the `eltako_enocean` integration, together with theorems settling the
specification claims about it.

Modelling conventions:
* Python exceptions are modelled by the inductive `PyErr`; fallible
  operations return `Except PyErr _` (or pair the resulting state with
  `Option PyErr` when the source mutates state before raising).
* Python `float` arithmetic is modelled by exact rational arithmetic (`ℚ`);
  every concrete value appearing in a theorem below is exactly
  representable, so the model and CPython agree on all of them.
* Python `int(x)` (truncation toward zero) is `pyInt`.
* Mutable attributes of `EltakoStandardCover` are gathered in `CoverState`;
  the immutable configuration read in `__init__` is `CoverConfig`.
-/

/-- Kinds of Python exceptions relevant to the embedded code.
`wrongOrg` models `eltakobus.eep.WrongOrgError` (profile/decode mismatch);
the others model the Python builtins of the same names. -/
inductive PyErr where
  | wrongOrg
  | typeError
  | valueError
  | keyError
deriving DecidableEq, Repr

/-- Python `int(x)` applied to a float/rational: truncation toward zero
(floor for nonnegative arguments, ceiling for negative ones). -/
def pyInt (q : ℚ) : ℤ := if 0 ≤ q then ⌊q⌋ else ⌈q⌉

instance {ε α : Type} [DecidableEq ε] [DecidableEq α] : DecidableEq (Except ε α) :=
  fun x y =>
  match x, y with
  | .ok a, .ok b =>
    if h : a = b then isTrue (by rw [h])
    else isFalse (by intro hc; cases hc; exact h rfl)
  | .ok _, .error _ => isFalse (by intro hc; cases hc)
  | .error _, .ok _ => isFalse (by intro hc; cases hc)
  | .error e, .error f =>
    if h : e = f then isTrue (by rw [h])
    else isFalse (by intro hc; cases hc; exact h rfl)

/-- Immutable per-cover configuration, read from the config entry in
`EltakoStandardCover.__init__` (`cover.py` lines 63-65) plus the gateway's
`fast_status_change` flag.  Times are whole seconds; `none` models a
missing (`None`) configuration value. -/
structure CoverConfig where
  time_closes : Option ℤ
  time_opens : Option ℤ
  time_tilts : Option ℤ
  fast_status_change : Bool
deriving DecidableEq, Repr

/-- The mutable `_attr_*` state of `EltakoStandardCover`
(`cover.py` lines 58-62).  `none` models Python `None`. -/
structure CoverState where
  is_opening : Bool
  is_closing : Bool
  is_closed : Option Bool
  current_cover_position : Option ℤ
  current_cover_tilt_position : Option ℤ
deriving DecidableEq, Repr

/-- Decoded form of a `G5_3F_7F` status telegram as produced by the external
`G5_3F_7F.decode_message`: a state byte plus optional elapsed time (tenths
of a second) and direction byte. -/
structure G5_3F_7F_Decoded where
  state : ℕ
  time : Option ℕ
  direction : Option ℕ
deriving DecidableEq, Repr

/-- An outbound `H5_3F_7F(moving_time, command, 1)` payload
(the third argument is always the constant 1 in `cover.py`). -/
structure H5Command where
  moving_time : ℤ
  command : ℕ
deriving DecidableEq, Repr

/-- `EltakoStandardCover.value_changed` (`cover.py` lines 188-260), applied
to the decoded telegram.  Returns the state after execution together with
the exception raised, if any: Python assigns
`_attr_current_cover_position` before the tilt update line can raise
`TypeError` (adding an `int` to `None`), so the position mutation survives
the raise and the final `is_closed`/`is_opening`/`is_closing` assignments
do not run. -/
def value_changed (cfg : CoverConfig) (s : CoverState) (d : G5_3F_7F_Decoded) :
    CoverState × Option PyErr :=
  if d.state = 0x02 then
    ({ s with is_closing := true, is_opening := false, is_closed := some false }, none)
  else if d.state = 0x50 then
    ({ s with is_opening := false, is_closing := false, is_closed := some true,
              current_cover_position := some 0,
              current_cover_tilt_position := some 0 }, none)
  else if d.state = 0x01 then
    ({ s with is_opening := true, is_closing := false, is_closed := some false }, none)
  else if d.state = 0x70 then
    ({ s with is_opening := false, is_closing := false, is_closed := some false,
              current_cover_position := some 100,
              current_cover_tilt_position := some 100 }, none)
  else
    match d.time, d.direction, cfg.time_closes, cfg.time_opens with
    | some t, some dir, some tc, some topen =>
      let time_in_seconds : ℚ := (t : ℚ) / 10
      if dir = 0x01 then
        let p0 : ℤ := (s.current_cover_position).getD 0
        let p1 : ℤ := min (p0 + pyInt (time_in_seconds / (topen : ℚ) * 100)) 100
        let s1 := { s with current_cover_position := some p1 }
        match cfg.time_tilts with
        | none =>
          ({ s1 with is_closed := some (decide (p1 = 0)),
                     is_opening := false, is_closing := false }, none)
        | some tt =>
          match s.current_cover_tilt_position with
          | none => (s1, some PyErr.typeError)
          | some tl =>
            let tl1 : ℤ := min (tl + pyInt (time_in_seconds / (tt : ℚ) * 100)) 100
            ({ s1 with current_cover_tilt_position := some tl1,
                       is_closed := some (decide (p1 = 0)),
                       is_opening := false, is_closing := false }, none)
      else
        let p0 : ℤ := (s.current_cover_position).getD 100
        let p1 : ℤ := max (p0 - pyInt (time_in_seconds / (tc : ℚ) * 100)) 0
        let s1 := { s with current_cover_position := some p1 }
        match cfg.time_tilts with
        | none =>
          ({ s1 with is_closed := some (decide (p1 = 0)),
                     is_opening := false, is_closing := false }, none)
        | some tt =>
          match s.current_cover_tilt_position with
          | none => (s1, some PyErr.typeError)
          | some tl =>
            let tl1 : ℤ := max (tl - pyInt (time_in_seconds / (tt : ℚ) * 100)) 0
            ({ s1 with current_cover_tilt_position := some tl1,
                       is_closed := some (decide (p1 = 0)),
                       is_opening := false, is_closing := false }, none)
    | _, _, _, _ => (s, none)

/-- `EltakoStandardCover.async_set_cover_position` (`cover.py` lines
112-153).  Returns the `H5_3F_7F` command sent (if any) and the state after
the optional fast-status-change update.  `Except.error PyErr.typeError`
models the uncaught `TypeError` Python raises on `position >
self._attr_current_cover_position` when the current position is `None`
(an `int`/`None` ordering comparison); the Python equality test
`position == self._attr_current_cover_position` is `False` against `None`,
which the first `if` mirrors. -/
def async_set_cover_position (cfg : CoverConfig) (s : CoverState) (position : ℤ) :
    Except PyErr (Option H5Command × CoverState) :=
  match cfg.time_closes, cfg.time_opens with
  | some tc, some topen =>
    if s.current_cover_position = some position then .ok (none, s)
    else
      match
        (if position = 100 then Except.ok (true, topen + 1)
         else if position = 0 then Except.ok (false, -(tc + 1))
         else
           match s.current_cover_position with
           | none => Except.error PyErr.typeError
           | some p =>
             -- here `position ≠ p`, so Python's final `elif position < p`
             -- is the only remaining case after `position > p`
             if position > p then
               Except.ok (true, pyInt (((position - p : ℤ) : ℚ) / 100 * (topen : ℚ)))
             else
               Except.ok (false, pyInt (((p - position : ℤ) : ℚ) / 100 * (tc : ℚ)))
         : Except PyErr (Bool × ℤ))
      with
      | .error e => .error e
      | .ok (dirIsUp, mt0) =>
        let mt := max 1 (min mt0 255)
        let cmd : H5Command := { moving_time := mt, command := if dirIsUp then 0x01 else 0x02 }
        let s2 :=
          if cfg.fast_status_change then
            if dirIsUp then { s with is_opening := true, is_closing := false }
            else { s with is_closing := true, is_opening := false }
          else s
        .ok (some cmd, s2)
  | _, _ => .ok (none, s)

/-- Effect of one `async_set_cover_tilt_position` call: the `H5_3F_7F`
commands sent, in order, and the duration of the `asyncio.sleep` between
them (0 when no command is sent). -/
structure TiltEffect where
  commands : List H5Command
  sleep_seconds : ℚ
deriving DecidableEq, Repr

/-- `EltakoStandardCover.async_set_cover_tilt_position` (`cover.py` lines
167-186).  The method never mutates the cover state, so only the effect is
returned.  `TypeError` is raised by `tilt_position -
self._attr_current_cover_tilt_position` when the current tilt is `None`,
and by `abs(tilt_diff) / 100.0 * self._time_tilts` when `_time_tilts` is
`None`; both happen before any command is sent.  Note the method contains
no `_time_tilts is None` guard. -/
def async_set_cover_tilt_position (cfg : CoverConfig) (s : CoverState)
    (tilt_position : ℤ) : Except PyErr TiltEffect :=
  match s.current_cover_tilt_position with
  | none => .error PyErr.typeError
  | some tl =>
    let tilt_diff := tilt_position - tl
    if tilt_diff = 0 then .ok { commands := [], sleep_seconds := 0 }
    else
      match cfg.time_tilts with
      | none => .error PyErr.typeError
      | some tt =>
        let dirIsUp := tilt_diff > 0
        let sleeptime : ℚ := ((|tilt_diff| : ℤ) : ℚ) / 100 * (tt : ℚ)
        .ok { commands :=
                [ { moving_time := 0, command := if dirIsUp then 0x01 else 0x02 },
                  { moving_time := 0, command := 0x00 } ],
              sleep_seconds := min sleeptime 255 }

/-- Device addresses (the 4-byte `AddressExpression` keys), abstracted to
naturals: only equality of addresses matters to the router. -/
abbrev Address := ℕ

/-- Callback handles: each registered callback closure is identified by a
distinct natural number. -/
abbrev CB := ℕ

/-- The `EnOceanGateway.address_subscriptions` dict, as an association list
from address to the ordered list of registered callbacks.  Python dict
keys are unique; theorems that need this carry it as a hypothesis since
the type does not enforce it. -/
abbrev Registry := List (Address × List CB)

/-- Python `self.address_subscriptions.get(address)` / `address in ...`
combined: the list stored under an address, if the key is present. -/
def lookupList : Registry → Address → Option (List CB)
  | [], _ => none
  | p :: r, a => if p.1 = a then some p.2 else lookupList r a

/-- Overwrite the list stored under a key (Python dict item assignment /
in-place mutation of the stored list object). -/
def setEntry : Registry → Address → List CB → Registry
  | [], _, _ => []
  | p :: r, a, l => if p.1 = a then (a, l) :: setEntry r a l else p :: setEntry r a l

/-- `EnOceanGateway.register_address_callback` (`gateway.py` lines 70-76):
`self.address_subscriptions.setdefault(address, []).append(callback)`.
Appends to the existing list when the key is present (no duplicate check),
otherwise inserts a fresh singleton entry. -/
def register_address_callback (r : Registry) (a : Address) (cb : CB) : Registry :=
  match lookupList r a with
  | some l => setEntry r a (l ++ [cb])
  | none => r ++ [(a, [cb])]

/-- The unsubscribe closure returned by `register_address_callback`
(`gateway.py` line 76): `self.address_subscriptions[address].remove(callback)`.
Python raises `KeyError` when the address key is absent and `ValueError`
when `list.remove` does not find the callback; otherwise `list.remove`
deletes the first occurrence. -/
def unsubscribe_address_callback (r : Registry) (a : Address) (cb : CB) :
    Except PyErr Registry :=
  match lookupList r a with
  | none => .error PyErr.keyError
  | some l =>
    if cb ∈ l then .ok (setEntry r a (l.erase cb)) else .error PyErr.valueError

/-- One subscription-registry operation: a `register_address_callback` call
or an invocation of the unsubscribe closure it returned. -/
inductive Op where
  | sub (a : Address) (cb : CB)
  | unsub (a : Address) (cb : CB)
deriving DecidableEq, Repr

/-- Effect of one operation on the registry.  A failing unsubscribe raises
in Python without having mutated the dict, so it leaves the registry
unchanged here. -/
def stepOp (r : Registry) : Op → Registry
  | .sub a cb => register_address_callback r a cb
  | .unsub a cb =>
    match unsubscribe_address_callback r a cb with
    | .ok r2 => r2
    | .error _ => r

/-- Run a sequence of registry operations from a starting registry. -/
def runOps (r : Registry) : List Op → Registry
  | [] => r
  | op :: ops => runOps (stepOp r op) ops

/-- A run is fresh when every subscribe registers a callback that is not
already in that address's list at that moment (each closure object is
registered at most once). -/
def freshRun (r : Registry) : List Op → Bool
  | [] => true
  | Op.sub a cb :: ops =>
    !decide (cb ∈ (lookupList r a).getD []) && freshRun (stepOp r (.sub a cb)) ops
  | Op.unsub a cb :: ops => freshRun (stepOp r (.unsub a cb)) ops

/-- The at-most-once invariant of the subscription registry: no address's
callback list contains a handle twice. -/
def RegistryInv (r : Registry) : Prop := ∀ p ∈ r, p.2.Nodup

instance (r : Registry) : Decidable (RegistryInv r) := by
  unfold RegistryInv; infer_instance

/-- The per-address callback loop of
`EnOceanGateway._callback_receive_message_from_serial_bus`
(`gateway.py` lines 161-165): each callback is invoked in order;
`WrongOrgError` is caught and logged and the loop continues; any other
exception escapes the loop immediately.  Returns the callbacks actually
invoked, in order, together with the escaping exception if any. -/
def dispatchLoop (beh : CB → Except PyErr Unit) : List CB → List CB × Option PyErr
  | [] => ([], none)
  | cb :: rest =>
    match beh cb with
    | .ok _ => let r := dispatchLoop beh rest; (cb :: r.1, r.2)
    | .error .wrongOrg => let r := dispatchLoop beh rest; (cb :: r.1, r.2)
    | .error e => ([cb], some e)

/-- The broadcast loop of the same method (`gateway.py` lines 148-149):
`for callback in self.general_subscriptions: callback()` with no exception
handling, so the first raise escapes. -/
def runGeneral (beh : ℕ → Except PyErr Unit) : List ℕ → List ℕ × Option PyErr
  | [] => ([], none)
  | c :: rest =>
    match beh c with
    | .ok _ => let r := runGeneral beh rest; (c :: r.1, r.2)
    | .error e => ([c], some e)

/-- An inbound decoded message as seen by the router: whether it is an
`EltakoPoll` keep-alive, whether its class is one of the six recognized
payload-bearing kinds, and its source address. -/
structure InMsg where
  isPoll : Bool
  recognizedKind : Bool
  address : Address
deriving DecidableEq, Repr

/-- Observable outcome of one dispatch: the broadcast callbacks invoked,
the address callbacks invoked, and the exception escaping the method, if
any. -/
structure DispatchResult where
  generalInvoked : List ℕ
  addressInvoked : List CB
  escaped : Option PyErr
deriving DecidableEq, Repr

/-- `EnOceanGateway._callback_receive_message_from_serial_bus`
(`gateway.py` lines 141-165).  `gbeh`/`abeh` give the behaviour of the
broadcast and per-address callbacks, `gsubs` the broadcast subscription
list and `r` the address-subscription registry. -/
def callback_receive_message_from_serial_bus
    (gbeh : ℕ → Except PyErr Unit) (gsubs : List ℕ)
    (abeh : CB → Except PyErr Unit) (r : Registry) (msg : InMsg) : DispatchResult :=
  if msg.isPoll then { generalInvoked := [], addressInvoked := [], escaped := none }
  else
    let g := runGeneral gbeh gsubs
    match g.2 with
    | some e => { generalInvoked := g.1, addressInvoked := [], escaped := some e }
    | none =>
      if msg.recognizedKind then
        match lookupList r msg.address with
        | some cbs =>
          let a := dispatchLoop abeh cbs
          { generalInvoked := g.1, addressInvoked := a.1, escaped := a.2 }
        | none => { generalInvoked := g.1, addressInvoked := [], escaped := none }
      else { generalInvoked := g.1, addressInvoked := [], escaped := none }

/-- An outbound message as seen by `async_send_message_to_serial_bus`; the
flag records whether it is an `ESP2Message` instance. -/
structure OutMsg where
  isESP2 : Bool
  payload : ℕ
deriving DecidableEq, Repr

/-- Outcome of one send attempt. -/
inductive SendOutcome where
  | forwarded (m : OutMsg)
  | droppedWithWarning
  | skipped
deriving DecidableEq, Repr

/-- `EnOceanGateway.async_send_message_to_serial_bus` (`gateway.py` lines
131-139): while the bus is active an `ESP2Message` is forwarded to
`self._bus.send` (non-`ESP2Message` objects are silently skipped); while
inactive the message is dropped with a warning, with no queuing or retry. -/
def async_send_message_to_serial_bus (is_active : Bool) (msg : OutMsg) : SendOutcome :=
  if is_active then
    if msg.isESP2 then .forwarded msg else .skipped
  else .droppedWithWarning


/-- Whether a fallible call completed without raising. -/
def isOkE {e a : Type} : Except e a → Bool
  | .ok _ => true
  | .error _ => false

/-- Modelled from the spec's words (§4.3, duration telegram, direction UP):
`position = min(position + elapsed/time_opens*100, 100)` read as exact
arithmetic, for comparison with the code's truncating update. -/
def specDurationUpPosition (position elapsed time_opens : ℚ) : ℚ :=
  min (position + elapsed / time_opens * 100) 100

/-- Modelled from the spec's words (§4.3, `set_position` interpolation):
`moving_time = round(|target - position| / 100 * (time_opens if target >
position else time_closes))`, clamped to `[1,255]`, for comparison with the
code's truncating computation. -/
def specInterpolationMovingTime (position target time_opens time_closes : ℤ) : ℤ :=
  max 1 (min
    (round (((|target - position| : ℤ) : ℚ) / 100
      * (((if position < target then time_opens else time_closes) : ℤ) : ℚ))) 255)

theorem lookupList_setEntry_self (r : Registry) (a : Address) (l2 : List CB) :
    lookupList (setEntry r a l2) a = (lookupList r a).map (fun _ => l2) := by
  induction r with
  | nil => rfl
  | cons p r ih =>
    by_cases h : p.1 = a
    · simp [setEntry, lookupList, h]
    · simp [setEntry, lookupList, h, ih]

theorem lookupList_setEntry_ne (r : Registry) (a b : Address) (l2 : List CB)
    (h : b ≠ a) : lookupList (setEntry r a l2) b = lookupList r b := by
  induction r with
  | nil => rfl
  | cons p r ih =>
    by_cases hp : p.1 = a
    · simp only [setEntry, if_pos hp, lookupList]
      rw [hp, if_neg (fun hab : a = b => h hab.symm),
        if_neg (fun hab : a = b => h hab.symm)]
      exact ih
    · simp only [setEntry, if_neg hp, lookupList, ih]

theorem lookupList_append_of_none (r1 r2 : Registry) (a : Address)
    (h : lookupList r1 a = none) : lookupList (r1 ++ r2) a = lookupList r2 a := by
  induction r1 with
  | nil => rfl
  | cons p r1 ih =>
    by_cases hp : p.1 = a
    · simp [lookupList, hp] at h
    · simp only [lookupList, if_neg hp] at h
      simpa [lookupList, hp] using ih h

theorem mem_of_lookupList (r : Registry) (a : Address) (l : List CB)
    (h : lookupList r a = some l) : (a, l) ∈ r := by
  induction r with
  | nil => simp [lookupList] at h
  | cons p r ih =>
    obtain ⟨p1, p2⟩ := p
    by_cases hp : p1 = a
    · simp only [lookupList, if_pos hp, Option.some_inj] at h
      rw [← hp, ← h]
      exact List.mem_cons_self _ _
    · simp only [lookupList, if_neg hp] at h
      exact List.mem_cons_of_mem _ (ih h)

theorem mem_setEntry (r : Registry) (a : Address) (l2 : List CB)
    (p : Address × List CB) (h : p ∈ setEntry r a l2) : p.2 = l2 ∨ p ∈ r := by
  induction r with
  | nil => simp [setEntry] at h
  | cons q r ih =>
    by_cases hq : q.1 = a
    · simp only [setEntry, if_pos hq] at h
      rcases List.mem_cons.1 h with h | h
      · left; rw [h]
      · rcases ih h with h | h
        · exact Or.inl h
        · exact Or.inr (List.mem_cons_of_mem _ h)
    · simp only [setEntry, if_neg hq] at h
      rcases List.mem_cons.1 h with h | h
      · exact Or.inr (h ▸ List.mem_cons_self _ _)
      · rcases ih h with h | h
        · exact Or.inl h
        · exact Or.inr (List.mem_cons_of_mem _ h)

theorem registryInv_register (r : Registry) (a : Address) (cb : CB)
    (hInv : RegistryInv r) (hfresh : cb ∉ (lookupList r a).getD []) :
    RegistryInv (register_address_callback r a cb) := by
  unfold register_address_callback
  cases hl : lookupList r a with
  | none =>
    intro p hp
    rcases List.mem_append.1 hp with h | h
    · exact hInv p h
    · simp only [List.mem_singleton] at h
      rw [h]
      exact List.nodup_singleton cb
  | some l =>
    intro p hp
    rcases mem_setEntry _ _ _ _ hp with h | h
    · rw [h]
      have hlN : l.Nodup := hInv (a, l) (mem_of_lookupList _ _ _ hl)
      have hcb : cb ∉ l := by simpa [hl] using hfresh
      rw [← List.concat_eq_append]
      exact hlN.concat hcb
    · exact hInv p h

theorem registryInv_unsub (r : Registry) (a : Address) (cb : CB)
    (hInv : RegistryInv r) : RegistryInv (stepOp r (.unsub a cb)) := by
  simp only [stepOp]
  cases hu : unsubscribe_address_callback r a cb with
  | error e => exact hInv
  | ok r2 =>
    unfold unsubscribe_address_callback at hu
    cases hl : lookupList r a with
    | none => rw [hl] at hu; cases hu
    | some l =>
      rw [hl] at hu
      dsimp only at hu
      by_cases hm : cb ∈ l
      · rw [if_pos hm] at hu
        injection hu with hu
        subst hu
        intro p hp
        rcases mem_setEntry _ _ _ _ hp with h | h
        · rw [h]
          exact (List.erase_sublist cb l).nodup
            (hInv (a, l) (mem_of_lookupList _ _ _ hl))
        · exact hInv p h
      · rw [if_neg hm] at hu; cases hu

theorem registryInv_runOps (r : Registry) (ops : List Op) (hInv : RegistryInv r)
    (hfresh : freshRun r ops = true) : RegistryInv (runOps r ops) := by
  induction ops generalizing r with
  | nil => exact hInv
  | cons op ops ih =>
    cases op with
    | sub a cb =>
      simp only [freshRun, Bool.and_eq_true, Bool.not_eq_eq_eq_not, Bool.not_true,
        decide_eq_false_iff_not] at hfresh
      exact ih _ (registryInv_register r a cb hInv hfresh.1) hfresh.2
    | unsub a cb =>
      simp only [freshRun] at hfresh
      exact ih _ (registryInv_unsub r a cb hInv) hfresh

theorem dispatchLoop_benign (beh : CB → Except PyErr Unit) (l : List CB)
    (h : ∀ c ∈ l, beh c = Except.ok () ∨ beh c = Except.error PyErr.wrongOrg) :
    dispatchLoop beh l = (l, none) := by
  induction l with
  | nil => rfl
  | cons cb rest ih =>
    have hrest := ih (fun c hc => h c (List.mem_cons_of_mem _ hc))
    rcases h cb (List.mem_cons_self _ _) with hcb | hcb
    · simp [dispatchLoop, hcb, hrest]
    · simp [dispatchLoop, hcb, hrest]

theorem dispatchLoop_ne_wrongOrg (beh : CB → Except PyErr Unit) (l : List CB) :
    (dispatchLoop beh l).2 ≠ some PyErr.wrongOrg := by
  induction l with
  | nil => simp [dispatchLoop]
  | cons cb rest ih =>
    cases hcb : beh cb with
    | ok u => simpa [dispatchLoop, hcb] using ih
    | error e =>
      cases e with
      | wrongOrg => simpa [dispatchLoop, hcb] using ih
      | typeError => simp [dispatchLoop, hcb]
      | valueError => simp [dispatchLoop, hcb]
      | keyError => simp [dispatchLoop, hcb]

theorem dispatchLoop_propagates (beh : CB → Except PyErr Unit) (l1 : List CB)
    (cb : CB) (l2 : List CB) (e : PyErr)
    (h1 : ∀ c ∈ l1, beh c = Except.ok () ∨ beh c = Except.error PyErr.wrongOrg)
    (hcb : beh cb = Except.error e) (he : e ≠ PyErr.wrongOrg) :
    dispatchLoop beh (l1 ++ cb :: l2) = (l1 ++ [cb], some e) := by
  induction l1 with
  | nil =>
    cases e with
    | wrongOrg => exact absurd rfl he
    | typeError => simp [dispatchLoop, hcb]
    | valueError => simp [dispatchLoop, hcb]
    | keyError => simp [dispatchLoop, hcb]
  | cons c l1 ih =>
    have hrest := ih (fun d hd => h1 d (List.mem_cons_of_mem _ hd))
    rcases h1 c (List.mem_cons_self _ _) with hc | hc
    · simp [dispatchLoop, hc, hrest]
    · simp [dispatchLoop, hc, hrest]

theorem runGeneral_all_ok (beh : ℕ → Except PyErr Unit) (l : List ℕ)
    (h : ∀ c ∈ l, beh c = Except.ok ()) : runGeneral beh l = (l, none) := by
  induction l with
  | nil => rfl
  | cons c rest ih =>
    have hrest := ih (fun d hd => h d (List.mem_cons_of_mem _ hd))
    simp [runGeneral, h c (List.mem_cons_self _ _), hrest]

/-- C1, counterexample: the claim's exact formula
`position = min(position + elapsed/time_opens*100, 100)` does not hold on
the code for `time=15` (1.5 s), `time_opens=20`, unknown position: the code
truncates the increment (`int(...)`) and yields position 7, while the
formula yields 7.5. -/
theorem c1_duration_up_counterexample :
    (value_changed ⟨some 15, some 20, none, false⟩
        ⟨false, false, none, none, none⟩
        ⟨0, some 15, some 1⟩).1.current_cover_position = some 7 ∧
    specDurationUpPosition 0 ((15 : ℚ) / 10) 20 = 15 / 2 ∧
    ((7 : ℚ) ≠ 15 / 2) := by
  refine ⟨by norm_num [value_changed, pyInt],
    by norm_num [specDurationUpPosition], by norm_num⟩

/-- C1, amended: for a cover with both travel times configured whose tilt
is untracked or known, a duration telegram with direction UP received while
the position is unknown seeds the position at 0 and sets
`position = min(0 + int(elapsed/time_opens*100), 100)` — the increment is
truncated to an integer — sets direction to Idle, and sets `is_closed`
true exactly when the position is 0; no exception is raised.  (When tilt is
tracked but unknown, the code instead raises `TypeError` after updating the
position.) -/
theorem c1_duration_up_amended (cfg : CoverConfig) (s : CoverState)
    (d : G5_3F_7F_Decoded) (tc topen : ℤ) (t : ℕ)
    (h02 : d.state ≠ 0x02) (h50 : d.state ≠ 0x50) (h01 : d.state ≠ 0x01)
    (h70 : d.state ≠ 0x70)
    (ht : d.time = some t) (hdir : d.direction = some 0x01)
    (htc : cfg.time_closes = some tc) (hto : cfg.time_opens = some topen)
    (htilt : cfg.time_tilts = none ∨ s.current_cover_tilt_position ≠ none)
    (hpos : s.current_cover_position = none) :
    (value_changed cfg s d).2 = none ∧
    (value_changed cfg s d).1.current_cover_position
      = some (min (0 + pyInt ((t : ℚ) / 10 / (topen : ℚ) * 100)) 100) ∧
    (value_changed cfg s d).1.is_opening = false ∧
    (value_changed cfg s d).1.is_closing = false ∧
    ((value_changed cfg s d).1.is_closed = some true ↔
      (value_changed cfg s d).1.current_cover_position = some 0) := by
  rcases htilt with htt | htl
  · simp only [value_changed, ht, hdir, htc, hto, htt, hpos,
      if_neg h02, if_neg h50, if_neg h01, if_neg h70]
    norm_num [Option.getD_none, decide_eq_true_iff]
  · cases httv : cfg.time_tilts with
    | none =>
      simp only [value_changed, ht, hdir, htc, hto, httv, hpos,
        if_neg h02, if_neg h50, if_neg h01, if_neg h70]
      norm_num [Option.getD_none, decide_eq_true_iff]
    | some tt =>
      cases htlv : s.current_cover_tilt_position with
      | none => exact absurd htlv htl
      | some tl =>
        simp only [value_changed, ht, hdir, htc, hto, httv, htlv, hpos,
          if_neg h02, if_neg h50, if_neg h01, if_neg h70]
        norm_num [Option.getD_none, decide_eq_true_iff]

/-- C1, witness: `time=100` (10.0 s), direction UP, `time_opens=20`, from
unknown position yields position 50, direction Idle and no exception. -/
theorem c1_duration_up_witness :
    (value_changed ⟨some 15, some 20, none, false⟩
        ⟨false, false, none, none, none⟩ ⟨0, some 100, some 1⟩).2 = none ∧
    (value_changed ⟨some 15, some 20, none, false⟩
        ⟨false, false, none, none, none⟩
        ⟨0, some 100, some 1⟩).1.current_cover_position = some 50 ∧
    (value_changed ⟨some 15, some 20, none, false⟩
        ⟨false, false, none, none, none⟩
        ⟨0, some 100, some 1⟩).1.is_opening = false ∧
    (value_changed ⟨some 15, some 20, none, false⟩
        ⟨false, false, none, none, none⟩
        ⟨0, some 100, some 1⟩).1.is_closing = false := by
  have h := c1_duration_up_amended ⟨some 15, some 20, none, false⟩
    ⟨false, false, none, none, none⟩ ⟨0, some 100, some 1⟩
    15 20 100 (by decide) (by decide) (by decide) (by decide)
    rfl rfl rfl rfl (Or.inl rfl) rfl
  refine ⟨h.1, ?_, h.2.2.1, h.2.2.2.1⟩
  rw [h.2.1]
  norm_num [pyInt]

/-- C2: evaluation of `async_set_cover_position` at the failing input.
With `time_closes=15`, `time_opens=20`, current position 50:
`set_position(0)` sends a move-down command carrying `moving_time = 1` —
the code computes `-(time_closes + 1) = -16` and then clamps to `[1,255]` —
not `time_closes + 1 = 16` as the claim (and the analogous
`async_close_cover` path) requires; `set_position(100)` does send
`moving_time = time_opens + 1 = 21`, direction UP, as claimed. -/
theorem c2_full_travel_eval :
    async_set_cover_position ⟨some 15, some 20, none, false⟩
        ⟨false, false, none, some 50, none⟩ 0
      = .ok (some ⟨1, 0x02⟩, ⟨false, false, none, some 50, none⟩) ∧
    async_set_cover_position ⟨some 15, some 20, none, false⟩
        ⟨false, false, none, some 50, none⟩ 100
      = .ok (some ⟨21, 0x01⟩, ⟨false, false, none, some 50, none⟩) := by
  constructor
  · norm_num [async_set_cover_position, pyInt]
  · norm_num [async_set_cover_position, pyInt]

/-- C3, counterexample: the claim's `round` formula does not hold on the
code.  From position 0 to target 3 with `time_opens=50` the code truncates
`int(0.03*50) = int(1.5) = 1`, while `round(1.5) = 2`. -/
theorem c3_interpolation_counterexample :
    async_set_cover_position ⟨some 10, some 50, none, false⟩
        ⟨false, false, none, some 0, none⟩ 3
      = .ok (some ⟨1, 0x01⟩, ⟨false, false, none, some 0, none⟩) ∧
    specInterpolationMovingTime 0 3 50 10 = 2 ∧ (1 : ℤ) ≠ 2 := by
  refine ⟨by norm_num [async_set_cover_position, pyInt],
    by norm_num [specInterpolationMovingTime, round_eq], by norm_num⟩

/-- C3, amended: for a cover with both travel times configured, a known
current position, and a target strictly between 0 and 100 different from
the current position, `set_position` sends a move command with
`moving_time = int(|target - position| / 100 * (time_opens if target >
position else time_closes))` — truncated, not rounded — clamped to
`[1,255]`, with command byte 0x01 (up) when the target is above the
current position and 0x02 (down) otherwise. -/
theorem c3_interpolation_amended (cfg : CoverConfig) (s : CoverState)
    (tc topen p target : ℤ)
    (htc : cfg.time_closes = some tc) (hto : cfg.time_opens = some topen)
    (hp : s.current_cover_position = some p)
    (h0 : 0 < target) (h100 : target < 100) (hne : target ≠ p) :
    async_set_cover_position cfg s target
      = .ok (some ⟨max 1 (min (pyInt (((|target - p| : ℤ) : ℚ) / 100
            * (((if p < target then topen else tc) : ℤ) : ℚ))) 255),
          if p < target then 0x01 else 0x02⟩,
        if cfg.fast_status_change then
          (if p < target then { s with is_opening := true, is_closing := false }
           else { s with is_closing := true, is_opening := false })
        else s) := by
  have hne100 : target ≠ 100 := by omega
  have hne0 : target ≠ 0 := by omega
  have hps : ¬ (some p = some target) := by
    simp only [Option.some_inj]
    exact fun hh => hne hh.symm
  by_cases hlt : p < target
  · have habs : |target - p| = target - p := abs_of_pos (by omega)
    simp [async_set_cover_position, htc, hto, hp, hps, hne100, hne0, hlt, habs]
  · have hgt : target < p := by omega
    have habs : |target - p| = p - target := by
      rw [abs_sub_comm]
      exact abs_of_pos (by omega)
    simp [async_set_cover_position, htc, hto, hp, hps, hne100, hne0, hlt,
      not_lt.2 (le_of_lt hgt), habs]

/-- C3, witness: from position 20 to target 80 with `time_opens=40` the
command carries `moving_time = 24` (`int(0.6*40)`), direction UP. -/
theorem c3_interpolation_witness :
    async_set_cover_position ⟨some 15, some 40, none, false⟩
        ⟨false, false, none, some 20, none⟩ 80
      = .ok (some ⟨24, 0x01⟩, ⟨false, false, none, some 20, none⟩) := by
  have h := c3_interpolation_amended ⟨some 15, some 40, none, false⟩
    ⟨false, false, none, some 20, none⟩ 15 40 20 80
    rfl rfl rfl (by norm_num) (by norm_num) (by norm_num)
  rw [h]
  norm_num [pyInt]

/-- C4, counterexample: a subscriber callback raising an exception other
than a profile mismatch (here a `TypeError`) is not absorbed: it escapes
`_callback_receive_message_from_serial_bus`, so the failure unwinds past
the router to the caller of dispatch. -/
theorem c4_propagation_counterexample :
    (callback_receive_message_from_serial_bus (fun _ => .ok ()) []
        (fun c => if c = 0 then .error PyErr.typeError else .ok ())
        [(5, [0])] ⟨false, true, 5⟩).escaped = some PyErr.typeError := by
  rfl

/-- C4, amended: only profile-mismatch (`WrongOrgError`) exceptions raised
by per-address subscriber callbacks are absorbed and logged by the
dispatch loop; any other exception raised by a subscriber callback
immediately unwinds out of the loop (and broadcast callbacks are not
guarded at all).  Formally: the loop never lets a `WrongOrgError` escape,
and the first non-`WrongOrgError` failure escapes after interrupting the
remaining subscribers. -/
theorem c4_propagation_amended :
    (∀ (beh : CB → Except PyErr Unit) (l : List CB),
      (dispatchLoop beh l).2 ≠ some PyErr.wrongOrg) ∧
    (∀ (beh : CB → Except PyErr Unit) (l1 : List CB) (cb : CB) (l2 : List CB)
      (e : PyErr),
      (∀ c ∈ l1, beh c = Except.ok () ∨ beh c = Except.error PyErr.wrongOrg) →
      beh cb = Except.error e → e ≠ PyErr.wrongOrg →
      dispatchLoop beh (l1 ++ cb :: l2) = (l1 ++ [cb], some e)) :=
  ⟨dispatchLoop_ne_wrongOrg, dispatchLoop_propagates⟩

/-- C4, witness: with callbacks 7 (benign), 0 (raises `TypeError`) and 9,
the loop invokes 7 and 0, then the `TypeError` escapes, skipping 9. -/
theorem c4_propagation_witness :
    dispatchLoop (fun c => if c = 0 then .error PyErr.typeError else .ok ())
      [7, 0, 9] = ([7, 0], some PyErr.typeError) := by
  have h := c4_propagation_amended.2
    (fun c => if c = 0 then .error PyErr.typeError else .ok ())
    [7] 0 [9] PyErr.typeError (by decide) (by decide) (by decide)
  exact h

/-- C9: if every subscriber callback registered for the source address
either succeeds or raises only a profile-mismatch (`WrongOrgError`) —
which is caught and logged per subscriber — then dispatch of a recognized,
non-poll inbound telegram invokes every broadcast callback and every
address subscriber, in order, and nothing escapes. -/
theorem c9_decode_mismatch_dispatch (gbeh : ℕ → Except PyErr Unit)
    (gsubs : List ℕ) (abeh : CB → Except PyErr Unit) (r : Registry)
    (msg : InMsg) (cbs : List CB)
    (hpoll : msg.isPoll = false) (hkind : msg.recognizedKind = true)
    (hlook : lookupList r msg.address = some cbs)
    (hg : ∀ c ∈ gsubs, gbeh c = Except.ok ())
    (ha : ∀ c ∈ cbs, abeh c = Except.ok () ∨ abeh c = Except.error PyErr.wrongOrg) :
    callback_receive_message_from_serial_bus gbeh gsubs abeh r msg
      = { generalInvoked := gsubs, addressInvoked := cbs, escaped := none } := by
  simp [callback_receive_message_from_serial_bus, hpoll, hkind, hlook,
    runGeneral_all_ok gbeh gsubs hg, dispatchLoop_benign abeh cbs ha]

/-- C9, witness: three subscribers on address 5, the middle one raising
`WrongOrgError`: all three are invoked and nothing escapes. -/
theorem c9_decode_mismatch_witness :
    callback_receive_message_from_serial_bus (fun _ => .ok ()) [4]
      (fun c => if c = 1 then .error PyErr.wrongOrg else .ok ())
      [(5, [0, 1, 2])] ⟨false, true, 5⟩
      = { generalInvoked := [4], addressInvoked := [0, 1, 2], escaped := none } := by
  exact c9_decode_mismatch_dispatch (fun _ => .ok ()) [4]
    (fun c => if c = 1 then .error PyErr.wrongOrg else .ok ())
    [(5, [0, 1, 2])] ⟨false, true, 5⟩ [0, 1, 2]
    rfl rfl rfl (by decide) (by decide)

/-- C5, counterexample: with `time_tilts` unset and a known current tilt of
0, `set_tilt(50)` is not a silent no-op: the unguarded sleep-time
computation `abs(tilt_diff) / 100.0 * self._time_tilts` multiplies by
`None` and raises `TypeError`. -/
theorem c5_tilt_unset_counterexample :
    async_set_cover_tilt_position ⟨some 15, some 20, none, false⟩
      ⟨false, false, none, none, some 0⟩ 50 = .error PyErr.typeError := by
  norm_num [async_set_cover_tilt_position]

/-- C5, amended: with `time_tilts` unset, `set_tilt` is a no-op (no
command, no state change, no error) only when the target equals the known
current tilt; in every other case it raises `TypeError` before sending any
command — from the tilt difference when the current tilt is unknown, or
from the sleep-time multiplication otherwise.  (The method never mutates
the cover state in any case.) -/
theorem c5_tilt_unset_amended (cfg : CoverConfig) (s : CoverState)
    (target : ℤ) (htt : cfg.time_tilts = none) :
    (s.current_cover_tilt_position = none →
      async_set_cover_tilt_position cfg s target = .error PyErr.typeError) ∧
    (∀ tl, s.current_cover_tilt_position = some tl → target = tl →
      async_set_cover_tilt_position cfg s target
        = .ok { commands := [], sleep_seconds := 0 }) ∧
    (∀ tl, s.current_cover_tilt_position = some tl → target ≠ tl →
      async_set_cover_tilt_position cfg s target = .error PyErr.typeError) := by
  refine ⟨?_, ?_, ?_⟩
  · intro h
    simp [async_set_cover_tilt_position, h]
  · intro tl h heq
    simp [async_set_cover_tilt_position, h, heq]
  · intro tl h hne
    simp [async_set_cover_tilt_position, h, htt, sub_eq_zero, hne]

/-- C5, witness: with `time_tilts` unset and current tilt 20, `set_tilt(20)`
returns without commands or error, and `set_tilt(70)` raises `TypeError`. -/
theorem c5_tilt_unset_witness :
    async_set_cover_tilt_position ⟨some 15, some 20, none, false⟩
        ⟨false, false, none, none, some 20⟩ 20
      = .ok { commands := [], sleep_seconds := 0 } ∧
    async_set_cover_tilt_position ⟨some 15, some 20, none, false⟩
        ⟨false, false, none, none, some 20⟩ 70 = .error PyErr.typeError := by
  constructor
  · exact (c5_tilt_unset_amended ⟨some 15, some 20, none, false⟩
      ⟨false, false, none, none, some 20⟩ 20 rfl).2.1 20 rfl rfl
  · exact (c5_tilt_unset_amended ⟨some 15, some 20, none, false⟩
      ⟨false, false, none, none, some 20⟩ 70 rfl).2.2 20 rfl (by norm_num)

/-- C6, counterexample: unsubscribe is not idempotent.  After registering
callback 7 for address 5 and unsubscribing once, a second call of the
returned unsubscribe closure raises `ValueError` (`list.remove` on a list
not containing the callback), and on a never-registered address it raises
`KeyError` — neither is a no-op. -/
theorem c6_unsubscribe_counterexample :
    unsubscribe_address_callback (register_address_callback [] 5 7) 5 7
      = .ok [(5, [])] ∧
    unsubscribe_address_callback [(5, [])] 5 7 = .error PyErr.valueError ∧
    unsubscribe_address_callback [] 5 7 = .error PyErr.keyError := by
  exact ⟨rfl, rfl, rfl⟩

/-- C6, amended: the unsubscribe closure removes the first occurrence of
its callback from the address's list when present — decrementing that
callback's count by one, leaving every other callback's count and every
other address's list unchanged — and raises `ValueError` when the callback
is absent from the list, or `KeyError` when the address key is absent,
instead of being a no-op. -/
theorem c6_unsubscribe_amended (r : Registry) (a : Address) (cb : CB) :
    (lookupList r a = none →
      unsubscribe_address_callback r a cb = .error PyErr.keyError) ∧
    (∀ l, lookupList r a = some l → cb ∉ l →
      unsubscribe_address_callback r a cb = .error PyErr.valueError) ∧
    (∀ l, lookupList r a = some l → cb ∈ l →
      unsubscribe_address_callback r a cb = .ok (setEntry r a (l.erase cb)) ∧
      lookupList (setEntry r a (l.erase cb)) a = some (l.erase cb) ∧
      (l.erase cb).count cb = l.count cb - 1 ∧
      (∀ d, d ≠ cb → (l.erase cb).count d = l.count d) ∧
      (∀ b, b ≠ a → lookupList (setEntry r a (l.erase cb)) b = lookupList r b)) := by
  refine ⟨?_, ?_, ?_⟩
  · intro h
    simp [unsubscribe_address_callback, h]
  · intro l h hm
    simp [unsubscribe_address_callback, h, hm]
  · intro l h hm
    refine ⟨by simp [unsubscribe_address_callback, h, hm], ?_, ?_, ?_, ?_⟩
    · rw [lookupList_setEntry_self, h]
      rfl
    · exact List.count_erase_self cb l
    · intro d hd
      exact List.count_erase_of_ne hd l
    · intro b hb
      exact lookupList_setEntry_ne r a b (l.erase cb) hb

/-- C6, witness: removing callback 7 from address 5 with list `[7, 9]`
deletes exactly the 7, leaving `[9]`. -/
theorem c6_unsubscribe_witness :
    unsubscribe_address_callback [(5, [7, 9])] 5 7 = .ok [(5, [9])] := by
  have h := (c6_unsubscribe_amended [(5, [7, 9])] 5 7).2.2 [7, 9] rfl (by decide)
  exact h.1.trans (by decide)

/-- C7, counterexample: the registry does not maintain the at-most-once
invariant across every operation sequence: registering the same callback
twice for the same address stores it twice. -/
theorem c7_at_most_once_counterexample :
    ¬ RegistryInv (runOps [] [Op.sub 5 7, Op.sub 5 7]) ∧
    ((lookupList (runOps [] [Op.sub 5 7, Op.sub 5 7]) 5).getD []).count 7 = 2 := by
  exact ⟨by decide, by decide⟩

/-- C7, amended: the at-most-once invariant is maintained across every
sequence of subscribe and unsubscribe operations in which each subscribe
registers a callback not already present for that address (fresh closure
handles); and unsubscribing a present handle removes exactly that handle —
one occurrence of it and no other element. -/
theorem c7_at_most_once_amended :
    (∀ (r : Registry) (ops : List Op), RegistryInv r → freshRun r ops = true →
      RegistryInv (runOps r ops)) ∧
    (∀ (r : Registry) (a : Address) (cb : CB) (l : List CB),
      lookupList r a = some l → cb ∈ l →
      unsubscribe_address_callback r a cb = .ok (setEntry r a (l.erase cb)) ∧
      lookupList (setEntry r a (l.erase cb)) a = some (l.erase cb) ∧
      (l.erase cb).count cb = l.count cb - 1 ∧
      (∀ d, d ≠ cb → (l.erase cb).count d = l.count d)) := by
  constructor
  · exact registryInv_runOps
  · intro r a cb l h hm
    refine ⟨by simp [unsubscribe_address_callback, h, hm], ?_, ?_, ?_⟩
    · rw [lookupList_setEntry_self, h]
      rfl
    · exact List.count_erase_self cb l
    · intro d hd
      exact List.count_erase_of_ne hd l

/-- C7, witness: a fresh run of subscribes and unsubscribes (including
re-registering a handle after it was removed) preserves the at-most-once
invariant. -/
theorem c7_at_most_once_witness :
    RegistryInv (runOps []
      [Op.sub 5 7, Op.sub 5 8, Op.unsub 5 7, Op.sub 5 7, Op.sub 6 7]) := by
  exact c7_at_most_once_amended.1 []
    [Op.sub 5 7, Op.sub 5 8, Op.unsub 5 7, Op.sub 5 7, Op.sub 6 7]
    (by decide) (by decide)

/-- C8: for every telegram (an `ESP2Message`), sending while the bus is
inactive (connection DOWN) drops the telegram with a warning and forwards
nothing to the transport — no queuing, no retry — while sending when
active (UP) forwards the telegram to the transport's `send`. -/
theorem c8_send_gating (msg : OutMsg) (h : msg.isESP2 = true) :
    async_send_message_to_serial_bus false msg = SendOutcome.droppedWithWarning ∧
    async_send_message_to_serial_bus true msg = SendOutcome.forwarded msg := by
  constructor
  · rfl
  · simp [async_send_message_to_serial_bus, h]

/-- C8, witness: a concrete ESP2 telegram is dropped when DOWN and
forwarded when UP. -/
theorem c8_send_gating_witness :
    async_send_message_to_serial_bus false ⟨true, 42⟩
        = SendOutcome.droppedWithWarning ∧
    async_send_message_to_serial_bus true ⟨true, 42⟩
        = SendOutcome.forwarded ⟨true, 42⟩ := by
  exact c8_send_gating ⟨true, 42⟩ rfl

/-- C10: with both travel times configured, `set_position` raises
`TypeError` whenever the current position is unknown (`None`) and the
target is strictly between 0 and 100 — Python's `position >
self._attr_current_cover_position` comparison of an `int` against `None` —
and completes without exception whenever the current position is known or
the target is exactly 0 or 100. -/
theorem c10_unknown_position_typeerror (cfg : CoverConfig) (s : CoverState)
    (tc topen : ℤ) (htc : cfg.time_closes = some tc)
    (hto : cfg.time_opens = some topen) (target : ℤ) :
    (s.current_cover_position = none → 0 < target → target < 100 →
      async_set_cover_position cfg s target = .error PyErr.typeError) ∧
    (∀ p, s.current_cover_position = some p →
      isOkE (async_set_cover_position cfg s target) = true) ∧
    ((target = 0 ∨ target = 100) →
      isOkE (async_set_cover_position cfg s target) = true) := by
  refine ⟨?_, ?_, ?_⟩
  · intro hpos h0 h100
    have hne100 : ¬ target = 100 := by omega
    have hne0 : ¬ target = 0 := by omega
    simp [async_set_cover_position, htc, hto, hpos, hne100, hne0]
  · intro p hp
    by_cases heq : target = p
    · subst heq
      simp [async_set_cover_position, htc, hto, hp, isOkE]
    · have hps : ¬ (some p = some target) := by
        simp only [Option.some_inj]
        exact fun hh => heq hh.symm
      by_cases h100 : target = 100
      · subst h100
        simp [async_set_cover_position, htc, hto, hp, hps, isOkE]
      · by_cases h0 : target = 0
        · subst h0
          simp [async_set_cover_position, htc, hto, hp, hps, h100, isOkE]
        · by_cases hlt : p < target
          · simp [async_set_cover_position, htc, hto, hp, hps, h100, h0, hlt, isOkE]
          · simp [async_set_cover_position, htc, hto, hp, hps, h100, h0, hlt, isOkE]
  · intro htar
    cases hp : s.current_cover_position with
    | some p =>
      by_cases heq : target = p
      · subst heq
        simp [async_set_cover_position, htc, hto, hp, isOkE]
      · have hps : ¬ (some p = some target) := by
          simp only [Option.some_inj]
          exact fun hh => heq hh.symm
        rcases htar with h0 | h100
        · subst h0
          by_cases h100 : (0 : ℤ) = 100
          · exact absurd h100 (by norm_num)
          · simp [async_set_cover_position, htc, hto, hp, hps, isOkE]
        · subst h100
          simp [async_set_cover_position, htc, hto, hp, hps, isOkE]
    | none =>
      rcases htar with h0 | h100
      · subst h0
        simp [async_set_cover_position, htc, hto, hp, isOkE]
      · subst h100
        simp [async_set_cover_position, htc, hto, hp, isOkE]

/-- C10, witness: with travel times 15/20, from unknown position,
`set_position(40)` raises `TypeError` while `set_position(0)` and a known
position 50 complete without exception. -/
theorem c10_unknown_position_witness :
    async_set_cover_position ⟨some 15, some 20, none, false⟩
        ⟨false, false, none, none, none⟩ 40 = .error PyErr.typeError ∧
    isOkE (async_set_cover_position ⟨some 15, some 20, none, false⟩
        ⟨false, false, none, none, none⟩ 0) = true ∧
    isOkE (async_set_cover_position ⟨some 15, some 20, none, false⟩
        ⟨false, false, none, some 50, none⟩ 40) = true := by
  refine ⟨?_, ?_, ?_⟩
  · exact (c10_unknown_position_typeerror ⟨some 15, some 20, none, false⟩
      ⟨false, false, none, none, none⟩ 15 20 rfl rfl 40).1 rfl
      (by norm_num) (by norm_num)
  · exact (c10_unknown_position_typeerror ⟨some 15, some 20, none, false⟩
      ⟨false, false, none, none, none⟩ 15 20 rfl rfl 0).2.2 (Or.inl rfl)
  · exact (c10_unknown_position_typeerror ⟨some 15, some 20, none, false⟩
      ⟨false, false, none, some 50, none⟩ 15 20 rfl rfl 40).2.1 50 rfl
